import Mathlib

/-!
Verification development for the voca vocabulary-drill engine.

Each definition in this file is a shallow embedding of a function of the
repository (file and line references in the doc comments).  Pandas / numpy
floats are modelled as real numbers, Python lists as Lean lists, Python
dicts used as records as Lean structures, and functions that can raise as
Except-valued functions.
-/

namespace Voca

/-! ## Data model -/

/-- One edge of the `linked_items` relation graph: a Python dict
`\x7b"data_id": ..., "relation": ...\x7d` (src/v_single_vocab.py, src/v_sentence_builder.py). -/
structure LinkedItem where
  data_id : String
  relation : String
deriving DecidableEq, Repr

/-- A vocabulary entry as held by `SingleVocabulary` in src/v_single_vocab.py
(the JSONCache plumbing is dropped; `data_id` is the cache key).  A missing
optional `word` is modelled as the empty string, matching Python falsiness. -/
structure VocabEntry where
  data_id : String
  meaning_en : String
  language : String
  word : String
  categories : List String
  vocab_types : List String
  linked_items : List LinkedItem
deriving DecidableEq, Repr

/-- The id derivation of `SingleVocabulary.__init__`
(src/v_single_vocab.py:38): the language, the underscore-joined vocab
types list, and the English meaning, separated by underscores. -/
def derivedId (language : String) (vocab_types : List String) (meaning_en : String) : String :=
  language ++ "_" ++ String.intercalate "_" vocab_types ++ "_" ++ meaning_en

/-- Construction of a new `SingleVocabulary` without a supplied `data_id`
(src/v_single_vocab.py:28-64).  Python truthiness of the argument strings is
modelled as emptiness; the two `ValueError`s become `Except.error`.  A fresh
entry starts with the given (possibly empty) `word`, `categories` and empty
`linked_items`, and its id is `derivedId`. -/
def makeNewVocab (meaning_en : String) (language : String) (vocab_types : List String)
    (word : String) (categories : List String) : Except String VocabEntry :=
  if meaning_en = "" ∨ language = "" then
    .error "meaning_en and language must be provided when data_id is not set."
  else if vocab_types = [] then
    .error "vocab_types must be provided when data_id is not set."
  else
    .ok { data_id := derivedId language vocab_types meaning_en
          meaning_en := meaning_en
          language := language
          word := word
          categories := categories
          vocab_types := vocab_types
          linked_items := [] }

/-! ## Linked-item edges (src/v_sentence_builder.py) -/

/-- The guarded edge insertion used twice in
`SentenceBuilder._build_sentence_objects` (src/v_sentence_builder.py:137-160):
append the edge `(target, rel)` unless an edge with the same `data_id` and
`relation` is already present. -/
def addLink (links : List LinkedItem) (target : String) (rel : String) : List LinkedItem :=
  if links.any (fun li => li.data_id == target && li.relation == rel) then links
  else links ++ [{ data_id := target, relation := rel }]

/-- A raw item parsed from the LLM response by
`SentenceBuilder._parse_llm_response` (src/v_sentence_builder.py:96-104):
always has string `meaning_en` and `word`; `language` may be absent or empty
(modelled as the empty string, Python falsiness), `categories` and
`vocab_types` may be empty lists. -/
structure RawItem where
  meaning_en : String
  language : String
  word : String
  categories : List String
  vocab_types : List String
deriving DecidableEq, Repr

/-- The per-item body of `SentenceBuilder._build_sentence_objects`
(src/v_sentence_builder.py:117-162), folded over the item list while
threading the base entry's mutated `linked_items`.  Construction of the
sentence object goes through `makeNewVocab` (the same `SingleVocabulary`
constructor); an error propagates out of the whole call, as the Python
exception would. -/
def buildSentenceObjects (base : VocabEntry) :
    List RawItem → List LinkedItem → Except String (List LinkedItem × List VocabEntry)
  | [], baseLinks => .ok (baseLinks, [])
  | item :: rest, baseLinks =>
    let language := if item.language = "" then base.language else item.language
    let itemCategories0 := if item.categories = [] then base.categories else item.categories
    let itemCategories :=
      if "example_sentence" ∈ itemCategories0 then itemCategories0
      else itemCategories0 ++ ["example_sentence"]
    let itemVocabTypes := if item.vocab_types = [] then ["phrase"] else item.vocab_types
    match makeNewVocab item.meaning_en language itemVocabTypes item.word itemCategories with
    | .error e => .error e
    | .ok sv =>
      let baseLinks1 := addLink baseLinks sv.data_id "example_sentence"
      let sv1 : VocabEntry :=
        { sv with linked_items := addLink sv.linked_items base.data_id "example_for" }
      match buildSentenceObjects base rest baseLinks1 with
      | .error e => .error e
      | .ok (bl, objs) => .ok (bl, sv1 :: objs)

/-! ## Store (src/v_vocabulary_store.py) -/

/-- The in-memory collection of `VocabularyStore` is the plain Python list
`self._vocabs`; `add` (src/v_vocabulary_store.py:50-53) appends to it. -/
def storeAdd (vocabs : List VocabEntry) (v : VocabEntry) : List VocabEntry :=
  vocabs ++ [v]

/-- Modelled from the spec: the durable write `vocab.json_cache_save()`
performed by `VocabularyStore.add` comes from the external `cacherator`
library (not in src/); per the spec it writes the entry durably keyed by
its content-derived id.  The persisted state is a map from id to entry. -/
def persistSave (st : String → Option VocabEntry) (v : VocabEntry) :
    String → Option VocabEntry :=
  fun i => if i = v.data_id then some v else st i

/-! ## Performance ledger (src/performance.py) -/

/-- One row of the performance tab (columns used by src/performance.py:
`source`, `translation`, `direction`, `rating`, `date`). -/
structure PerfRow where
  source : String
  translation : String
  direction : String
  rating : Int
  date : String
deriving DecidableEq, Repr

/-- The state of a `Performance` object (src/performance.py:15-24): the
optional backing tab (a dataframe, modelled as a row list) and the key. -/
structure Performance where
  performance_tab : Option (List PerfRow)
  source : String
  translation : String
  direction : String

/-- `Performance.performance_data` (src/performance.py:26-30): `None` when
there is no tab, otherwise the rows filtered on the
(source, translation, direction) key. -/
def Performance.performance_data (p : Performance) : Option (List PerfRow) :=
  p.performance_tab.map fun df =>
    df.filter fun r => r.source == p.source && r.translation == p.translation
      && r.direction == p.direction

/-- `Performance.overall_rating` (src/performance.py:32-35): 0 when the tab
is absent or no row matches, otherwise the sum of the matching ratings. -/
def Performance.overall_rating (p : Performance) : Int :=
  match p.performance_data with
  | none => 0
  | some rows => if rows.length = 0 then 0 else (rows.map (fun r => r.rating)).sum

/-- `Performance.num_ratings` (src/performance.py:37-40): 0 when the tab is
absent or no row matches, otherwise the number of matching rows. -/
def Performance.num_ratings (p : Performance) : Nat :=
  match p.performance_data with
  | none => 0
  | some rows => if rows.length = 0 then 0 else rows.length

/-- `Performance.last_check` (src/performance.py:42-45): the empty string
when the tab is absent or no row matches, otherwise the maximum of the
matching date strings (pandas string max, lexicographic). -/
def Performance.last_check (p : Performance) : String :=
  match p.performance_data with
  | none => ""
  | some rows =>
    if rows.length = 0 then "" else (rows.map (fun r => r.date)).foldl max ""

/-! ## Selector entry points -/

/-- One row of the vocabulary tab as consumed by `sample_vocab`
(src/vocabulary.py): only the shape matters for the selection guard. -/
structure VocabRow where
  source : String
  translation : String
  category : String
  overall_rating : Int
  num_ratings : Nat
deriving DecidableEq, Repr

/-- `sample_vocab` (src/vocabulary.py:60-70): raises `ValueError` when `n`
exceeds the number of rows, otherwise draws `n` distinct rows without
replacement.  The weighted random draw (`rng.choice` with probabilities
from `compute_vocab_weights`) is modelled as taking the first `n` rows:
only the guard and the size of the selection matter for the claims here. -/
def sample_vocab (df : List VocabRow) (n : Nat) : Except String (List VocabRow) :=
  if n > df.length then .error "n cannot be larger than the number of rows in df"
  else .ok (df.take n)

/-- `VocabLearningSession._select_cards` in its final selection step
(src/v_vocab_learning_session.py:81-88), generic in the candidate type:
empty pool gives an empty selection, otherwise `sample_n = min(n, len)` and
`random.sample(candidates, k=sample_n)` is drawn when `sample_n < len`
(modelled as taking the first `sample_n` candidates — only the size of the
selection matters for the claims here). -/
def select_cards {α : Type} (n : Nat) (candidates : List α) : List α :=
  match candidates with
  | [] => []
  | _ =>
    let sample_n := min n candidates.length
    if sample_n < candidates.length then candidates.take sample_n else candidates

/-- The state of a `VocabLearningSession` after a successful `__init__`
(src/v_vocab_learning_session.py:17-36); store and api key plumbing
dropped.  `none` filters mean "not supplied". -/
structure VocabLearningSession where
  source_language : String
  target_language : String
  n : Nat
  categories : Option (List String)
  vocab_types : Option (List String)
deriving DecidableEq, Repr

/-- `VocabLearningSession.__init__` (src/v_vocab_learning_session.py:17-36):
raises `ValueError` when source and target language coincide, before any
other side effect; otherwise the session object is created. -/
def makeSession (source_language target_language : String) (n : Nat)
    (categories vocab_types : Option (List String)) : Except String VocabLearningSession :=
  if source_language = target_language then
    .error "Source and target language must differ."
  else
    .ok { source_language := source_language
          target_language := target_language
          n := n
          categories := categories
          vocab_types := vocab_types }

/-! ## Card interaction (src/v_vocab_learning_unit.py, src/single_vocabulary.py) -/

/-- Python `str.strip()` as used on user input (src/v_vocab_learning_unit.py:73,
src/single_vocabulary.py:108): drop leading and trailing whitespace.
Defined over the character list so that it evaluates in the kernel. -/
def pyStrip (s : String) : String :=
  String.mk (((s.data.dropWhile Char.isWhitespace).reverse.dropWhile
    Char.isWhitespace).reverse)

/-- The result dict of one interaction: `score`, `hints`, and the number of
times the external evaluator (`evaluate_answer`, an LLM call) was invoked.
The call count is not in the Python dict; it instruments the embedding so
that "the evaluator is never / exactly once invoked" is statable. -/
structure InteractionResult where
  score : Int
  hints : String
  evaluator_calls : Nat
deriving DecidableEq, Repr

/-- The interaction loop of `VocabLearningUnit.run_interaction`
(src/v_vocab_learning_unit.py:55-95) over a stream of user inputs; the
external evaluator is the abstract `ev` (answer ↦ (score, hints)).  Inputs
are stripped (`input("> ").strip()`); `"1"`, `"2"` and `"3"` are menu
actions that loop; the empty input returns score 0 with no evaluator call;
any other input is evaluated exactly once and returned.  `none` models the
program still blocking for input when the stream runs out. -/
def run_interaction (ev : String → Int × String) : List String → Option InteractionResult
  | [] => none
  | s :: rest =>
    let u := pyStrip s
    if u = "1" then run_interaction ev rest
    else if u = "2" then run_interaction ev rest
    else if u = "3" then run_interaction ev rest
    else if u = "" then some { score := 0, hints := "", evaluator_calls := 0 }
    else some { score := (ev u).1, hints := (ev u).2, evaluator_calls := 1 }

/-- The ledger-path result dict of `SingleVocabulary.rate_translation`:
`rating`, `hints`, and the instrumented evaluator call count. -/
structure RatingResult where
  rating : Int
  hints : String
  evaluator_calls : Nat
deriving DecidableEq, Repr

/-- `SingleVocabulary.rate_translation` (src/single_vocabulary.py:107-125):
a translation that strips to the empty string returns the sentinel
`\x7b"rating": -1, "hints": ""\x7d` without calling the LLM; otherwise the
external evaluator `ev` is invoked exactly once on the translation. -/
def rate_translation (ev : String → Int × String) (translation : String) : RatingResult :=
  if pyStrip translation = "" then { rating := -1, hints := "", evaluator_calls := 0 }
  else { rating := (ev translation).1, hints := (ev translation).2, evaluator_calls := 1 }

/-! ## Ingestion pipeline (src/v_vocabulary_builder.py) -/

/-- The per-batch dedup filter of `VocabularyBuilder.generate`
(src/v_vocabulary_builder.py:78-84), at the level of dedup keys
`(language, meaning_en, vocab_types)` (generic `α`): keep an item unless
its key was already seen, adding kept keys to `seen` as the batch is
scanned (this also subsumes the intra-batch `_deduplicate_items` pass,
which uses the same keys). -/
def filterNew {α : Type} [DecidableEq α] : List α → List α → List α
  | _, [] => []
  | seen, k :: ks =>
    if k ∈ seen then filterNew seen ks else k :: filterNew (k :: seen) ks

/-- The `while remaining > 0` loop of `VocabularyBuilder.generate`
(src/v_vocabulary_builder.py:52-90), at dedup-key level.  The external
generator is `gen batchIdx thisBatch` (the LLM call for the given batch,
asked for `this_batch_n = min(batch_size, remaining)` items — its output
size is unconstrained, as in the source).  A batch with no genuinely new
items breaks the loop.  Returns the accumulated results together with the
number of generator calls made. -/
def generateLoop {α : Type} [DecidableEq α] (gen : Nat → Nat → List α)
    (n batchSize : Nat) (batchIdx : Nat) (seen results : List α) : List α × Nat :=
  if _h : n ≤ results.length then (results, batchIdx)
  else
    let thisBatch := min batchSize (n - results.length)
    let newItems := filterNew seen (gen batchIdx thisBatch)
    if hne : newItems = [] then (results, batchIdx + 1)
    else generateLoop gen n batchSize (batchIdx + 1) (newItems ++ seen) (results ++ newItems)
termination_by n - results.length
decreasing_by
  show n - (results ++ newItems).length < n - results.length
  have h2 : 0 < newItems.length := List.length_pos.mpr hne
  simp only [List.length_append]
  omega

/-- `VocabularyBuilder.generate` (src/v_vocabulary_builder.py:33-92) at
dedup-key level: run the loop starting from the keys of `existing_vocab`
and return `results[:n]`, paired with the number of generator calls. -/
def generate {α : Type} [DecidableEq α] (gen : Nat → Nat → List α)
    (n batchSize : Nat) (existingKeys : List α) : List α × Nat :=
  let r := generateLoop gen n batchSize 0 existingKeys []
  (r.1.take n, r.2)

/-! ## Sampling weights (src/vocabulary.py:49-58) -/

/-- The weight formula of `compute_vocab_weights` (src/vocabulary.py:56):
`2.0 ** ((k_eff * (50.0 - avg)) / 50.0)`, over the reals (numpy floats are
modelled as reals). -/
noncomputable def vocabWeight (k_eff avg : ℝ) : ℝ :=
  (2 : ℝ) ^ ((k_eff * (50 - avg)) / 50)

/-- `compute_vocab_weights` (src/vocabulary.py:49-58) for a single row with
sum `overall` ("overall rating") and count `num` ("num ratings"):
`avg = overall / num` with 0 counts mapped to `neutral_avg`
(`num.replace(0, nan)` then `fillna`), `k_eff = num` with zeros replaced by
1, and the weight as `vocabWeight`.  Note the formula uses the literal 50
regardless of `neutral_avg`, exactly as the source does. -/
noncomputable def compute_vocab_weights (overall : ℝ) (num : ℕ) (neutral_avg : ℝ) : ℝ :=
  vocabWeight (max num 1 : ℕ) (if num = 0 then neutral_avg else overall / num)

/-! ## Concrete data used in witnesses and counterexamples -/

/-- A concrete base vocabulary entry (the "dog" noun of the spec's
end-to-end scenario). -/
def sampleBase : VocabEntry :=
  { data_id := "fr_noun_dog"
    meaning_en := "dog"
    language := "fr"
    word := "chien"
    categories := ["basics"]
    vocab_types := ["noun"]
    linked_items := [] }

/-- A concrete parsed example-sentence item for `sampleBase`. -/
def sampleItem : RawItem :=
  { meaning_en := "The dog sleeps"
    language := "fr"
    word := "Le chien dort"
    categories := []
    vocab_types := [] }

/-- The sentence entry that `buildSentenceObjects sampleBase [sampleItem] []`
produces, with the inverse `example_for` edge back to `sampleBase`. -/
def sampleSentenceObj : VocabEntry :=
  { data_id := "fr_phrase_The dog sleeps"
    meaning_en := "The dog sleeps"
    language := "fr"
    word := "Le chien dort"
    categories := ["basics", "example_sentence"]
    vocab_types := ["phrase"]
    linked_items := [{ data_id := "fr_noun_dog", relation := "example_for" }] }

/-- A constant external evaluator used in witnesses: every answer is rated
100 with hint "ok". -/
def constEval : String → Int × String := fun _ => (100, "ok")

/-- Scenario generator for the ingestion loop: batch `i` yields the ten
fresh keys `10*i, ..., 10*i+9`, so every batch is genuinely new. -/
def genAlwaysFresh : Nat → Nat → List Nat :=
  fun i _ => (List.range 10).map (fun j => 10 * i + j)

/-- Scenario generator for the ingestion loop: the first batch yields ten
fresh keys, every later batch yields nothing new. -/
def genFreshThenExhausted : Nat → Nat → List Nat :=
  fun i _ => if i = 0 then List.range 10 else []

/-! ## Helper lemmas -/

/-- `addLink` always leaves an edge with the requested id and relation in
the list, whether it was already present or has just been appended. -/
theorem mem_addLink_self (links : List LinkedItem) (target rel : String) :
    ∃ li ∈ addLink links target rel, li.data_id = target ∧ li.relation = rel := by
  unfold addLink
  by_cases hany : links.any (fun li => li.data_id == target && li.relation == rel)
  · rw [if_pos hany]
    obtain ⟨li, hmem, hli⟩ := List.any_eq_true.mp hany
    exact ⟨li, hmem, by simpa using hli⟩
  · rw [if_neg hany]
    exact ⟨⟨target, rel⟩, by simp, rfl, rfl⟩

/-- Inserting the same `(target, rel)` edge a second time is a no-op. -/
theorem addLink_idem (links : List LinkedItem) (target rel : String) :
    addLink (addLink links target rel) target rel = addLink links target rel := by
  obtain ⟨li, hmem, h1, h2⟩ := mem_addLink_self links target rel
  unfold addLink
  rw [if_pos]
  exact List.any_eq_true.mpr ⟨li, hmem, by simp [h1, h2]⟩

/-- Every sentence object produced by `buildSentenceObjects` carries the
inverse `example_for` edge back to the base entry. -/
theorem buildSentenceObjects_example_for (base : VocabEntry) (items : List RawItem)
    (baseLinks bl : List LinkedItem) (objs : List VocabEntry)
    (hok : buildSentenceObjects base items baseLinks = .ok (bl, objs)) :
    ∀ s ∈ objs, ∃ li ∈ s.linked_items,
      li.data_id = base.data_id ∧ li.relation = "example_for" := by
  induction items generalizing baseLinks bl objs with
  | nil =>
    simp only [buildSentenceObjects] at hok
    cases hok
    simp
  | cons item rest ih =>
    simp only [buildSentenceObjects] at hok
    split at hok
    · exact absurd hok (by simp)
    · rename_i sv hsv
      split at hok
      · exact absurd hok (by simp)
      · rename_i bl2 objs2 hrec
        cases hok
        intro s hs
        rcases List.mem_cons.mp hs with hs1 | hs2
        · subst hs1
          simpa using mem_addLink_self sv.linked_items base.data_id "example_for"
        · exact ih _ _ _ hrec s hs2

/-- The interaction loop after any number of menu actions ("1", "2", "3")
reaches the final answer: empty gives the skip result with no evaluator
call, non-empty gives the evaluated result with one call. -/
theorem run_interaction_final (ev : String → Int × String) (menu : List String)
    (final : String) (rest : List String)
    (hmenu : ∀ s ∈ menu, pyStrip s = "1" ∨ pyStrip s = "2" ∨ pyStrip s = "3")
    (hfinal : ¬(pyStrip final = "1" ∨ pyStrip final = "2" ∨ pyStrip final = "3")) :
    run_interaction ev (menu ++ final :: rest) =
      if pyStrip final = "" then some { score := 0, hints := "", evaluator_calls := 0 }
      else some { score := (ev (pyStrip final)).1, hints := (ev (pyStrip final)).2,
                  evaluator_calls := 1 } := by
  push_neg at hfinal
  induction menu with
  | nil =>
    simp only [List.nil_append, run_interaction]
    rw [if_neg hfinal.1, if_neg hfinal.2.1, if_neg hfinal.2.2]
  | cons s menu ih =>
    have ih2 := ih (fun x hx => hmenu x (List.mem_cons_of_mem s hx))
    rcases hmenu s (List.mem_cons_self s menu) with h | h | h
    all_goals simp only [List.cons_append, run_interaction, h]
    all_goals simpa using ih2

/-! ## Claim theorems -/

/-- C1 (counterexample): the session entry point
`VocabLearningSession._select_cards` does NOT reject a request for more
cards than the pool holds: with a pool of one candidate and `n = 2` it
silently returns the single candidate (no error is raised — the function
has no error outcome at all), refuting the claim that every selection
entry point rejects pool-exhausting requests. -/
theorem select_cards_truncates_counterexample :
    select_cards 2 [sampleBase] = [sampleBase]
      ∧ (select_cards 2 [sampleBase]).length = 1 := by
  constructor <;> rfl

/-- C1 (amended): `sample_vocab` rejects a request for more rows than the
pool holds with an explicit error and otherwise returns exactly `n` rows,
but `VocabLearningSession._select_cards` instead clamps the request to the
pool size, returning `min n (pool size)` cards with no error. -/
theorem selection_pool_exhaustion :
    (∀ (df : List VocabRow) (n : Nat), df.length < n →
        sample_vocab df n = .error "n cannot be larger than the number of rows in df") ∧
    (∀ (df : List VocabRow) (n : Nat), n ≤ df.length →
        sample_vocab df n = .ok (df.take n) ∧ (df.take n).length = n) ∧
    (∀ (α : Type) (n : Nat) (cs : List α), (select_cards n cs).length = min n cs.length) := by
  refine ⟨?_, ?_, ?_⟩
  · intro df n h
    rw [sample_vocab, if_pos h]
  · intro df n h
    refine ⟨by rw [sample_vocab, if_neg (by omega)], ?_⟩
    rw [List.length_take]
    omega
  · intro α n cs
    cases cs with
    | nil => simp [select_cards]
    | cons c cs =>
      simp only [select_cards]
      by_cases h : min n (c :: cs).length < (c :: cs).length
      · rw [if_pos h, List.length_take]
        omega
      · rw [if_neg h]
        omega

/-- C1 (witness): the guard of `sample_vocab` rejects `n = 2` on a
one-element pool, accepts `n = 1`, and `_select_cards` clamps `n = 2` to a
one-element pool. -/
theorem selection_pool_exhaustion_witness :
    sample_vocab [⟨"chien", "Hund", "basics", 0, 0⟩] 2
        = .error "n cannot be larger than the number of rows in df"
      ∧ sample_vocab [⟨"chien", "Hund", "basics", 0, 0⟩] 1
          = .ok [⟨"chien", "Hund", "basics", 0, 0⟩]
      ∧ (select_cards 2 [sampleBase, sampleBase]).length = min 2 2 := by
  refine ⟨?_, ?_, ?_⟩
  · exact selection_pool_exhaustion.1 [⟨"chien", "Hund", "basics", 0, 0⟩] 2 (by decide)
  · exact (selection_pool_exhaustion.2.1 [⟨"chien", "Hund", "basics", 0, 0⟩] 1 (by decide)).1
  · exact selection_pool_exhaustion.2.2 VocabEntry 2 [sampleBase, sampleBase]

/-- C2: the sampling weight `2 ^ (k_eff * (50 - avg) / 50)` of
`compute_vocab_weights` (neutral = 50 in the source) is strictly
decreasing in `avg` for fixed `k_eff` (the code guarantees `k_eff ≥ 1`),
strictly increasing in `k_eff` for fixed `avg < 50`, and strictly
decreasing in `k_eff` for fixed `avg > 50`. -/
theorem vocabWeight_strict_monotone (k k1 k2 a a1 a2 : ℝ) :
    (1 ≤ k → a1 < a2 → vocabWeight k a2 < vocabWeight k a1) ∧
    (a < 50 → k1 < k2 → vocabWeight k1 a < vocabWeight k2 a) ∧
    (50 < a → k1 < k2 → vocabWeight k2 a < vocabWeight k1 a) := by
  refine ⟨?_, ?_, ?_⟩
  · intro hk h
    unfold vocabWeight
    rw [Real.rpow_lt_rpow_left_iff (by norm_num : (1:ℝ) < 2)]
    have h2 := mul_lt_mul_of_pos_left (show 50 - a2 < 50 - a1 by linarith)
      (show (0:ℝ) < k by linarith)
    linarith
  · intro ha h12
    unfold vocabWeight
    rw [Real.rpow_lt_rpow_left_iff (by norm_num : (1:ℝ) < 2)]
    have h2 := mul_lt_mul_of_pos_right h12 (show (0:ℝ) < 50 - a by linarith)
    linarith
  · intro ha h12
    unfold vocabWeight
    rw [Real.rpow_lt_rpow_left_iff (by norm_num : (1:ℝ) < 2)]
    have h2 := mul_lt_mul_of_neg_right h12 (show 50 - a < 0 by linarith)
    linarith

/-- C2 (witness): concrete instances of the three monotonicity directions
at `k_eff ∈ \x7b1, 2\x7d` and `avg ∈ \x7b40, 60\x7d`. -/
theorem vocabWeight_strict_monotone_witness :
    vocabWeight 1 60 < vocabWeight 1 40
      ∧ vocabWeight 1 40 < vocabWeight 2 40
      ∧ vocabWeight 2 60 < vocabWeight 1 60 := by
  refine ⟨?_, ?_, ?_⟩
  · exact (vocabWeight_strict_monotone 1 1 2 40 40 60).1 (by norm_num) (by norm_num)
  · exact (vocabWeight_strict_monotone 1 1 2 40 40 60).2.1 (by norm_num) (by norm_num)
  · exact (vocabWeight_strict_monotone 1 1 2 60 40 60).2.2 (by norm_num) (by norm_num)

/-- C3: under the default neutral average 50, a row with zero ratings gets
sampling weight exactly 1: it is treated as one neutral observation
(`k_eff = 1`, `avg = 50`), so the exponent is zero. -/
theorem zero_ratings_weight_one (overall : ℝ) :
    compute_vocab_weights overall 0 50 = 1
      ∧ compute_vocab_weights overall 0 50 = vocabWeight 1 50 := by
  constructor <;> simp [compute_vocab_weights, vocabWeight]

/-- C4: `VocabularyBuilder.generate` (a terminating function by its
well-founded definition: each kept batch strictly shrinks the remaining
count, and a batch with no new items exits) returns at most `n` entries;
against a generator always producing 10 fresh items, `generate(n=20,
batch_size=10)` stops after 2 batches with exactly 20 results; against a
generator producing 10 fresh items and then none, it stops after 2
batches with 10 results. -/
theorem generate_terminates_bounded :
    (∀ (α : Type) (inst : DecidableEq α) (gen : Nat → Nat → List α) (n batchSize : Nat)
        (existingKeys : List α), (@generate α inst gen n batchSize existingKeys).1.length ≤ n) ∧
    ((generate genAlwaysFresh 20 10 []).1.length = 20
      ∧ (generate genAlwaysFresh 20 10 []).2 = 2) ∧
    ((generate genFreshThenExhausted 20 10 []).1.length = 10
      ∧ (generate genFreshThenExhausted 20 10 []).2 = 2) := by
  refine ⟨?_, ?_, ?_⟩
  · intro α inst gen n batchSize existingKeys
    simp only [generate, List.length_take]
    omega
  · constructor <;>
      simp [generate, generateLoop, filterNew, genAlwaysFresh, List.range, List.range.loop]
  · constructor <;> simp [generate, generateLoop, filterNew, genFreshThenExhausted]

/-- C5: the id of a `SingleVocabulary` constructed without a supplied
`data_id` is a deterministic function of `(language, vocab_types,
meaning_en)`: two constructions from the same triple (with any words and
categories) yield the same id, namely `derivedId`. -/
theorem derived_id_deterministic (language : String) (vocab_types : List String)
    (meaning_en w1 w2 : String) (c1 c2 : List String) :
    ((makeNewVocab meaning_en language vocab_types w1 c1).map fun v => v.data_id)
        = ((makeNewVocab meaning_en language vocab_types w2 c2).map fun v => v.data_id)
      ∧ (∀ e, makeNewVocab meaning_en language vocab_types w1 c1 = .ok e →
          e.data_id = derivedId language vocab_types meaning_en) := by
  constructor
  · unfold makeNewVocab
    split_ifs <;> rfl
  · intro e h
    unfold makeNewVocab at h
    split_ifs at h
    cases h
    rfl

/-- C5 (witness): constructing the "dog" entry with two different words
and category lists yields the same id `fr_noun_dog = derivedId`. -/
theorem derived_id_deterministic_witness :
    ((makeNewVocab "dog" "fr" ["noun"] "chien" ["basics"]).map fun v => v.data_id)
        = ((makeNewVocab "dog" "fr" ["noun"] "le chien" []).map fun v => v.data_id)
      ∧ sampleBase.data_id = derivedId "fr" ["noun"] "dog" := by
  constructor
  · exact (derived_id_deterministic "fr" ["noun"] "dog" "chien" "le chien" ["basics"] []).1
  · exact (derived_id_deterministic "fr" ["noun"] "dog" "chien" "le chien" ["basics"] []).2
      sampleBase rfl

/-- C6: an empty (all-whitespace) final answer yields the skip sentinel —
rating -1 on the ledger path (`rate_translation`), score 0 on the
evaluation path (`run_interaction`) — with the external evaluator never
invoked; every non-empty final answer invokes the evaluator exactly once. -/
theorem skip_sentinel_evaluator_calls :
    (∀ (ev : String → Int × String) (t : String), pyStrip t = "" →
        rate_translation ev t = { rating := -1, hints := "", evaluator_calls := 0 }) ∧
    (∀ (ev : String → Int × String) (t : String), pyStrip t ≠ "" →
        rate_translation ev t
          = { rating := (ev t).1, hints := (ev t).2, evaluator_calls := 1 }) ∧
    (∀ (ev : String → Int × String) (menu : List String) (final : String)
        (rest : List String),
        (∀ s ∈ menu, pyStrip s = "1" ∨ pyStrip s = "2" ∨ pyStrip s = "3") →
        ¬(pyStrip final = "1" ∨ pyStrip final = "2" ∨ pyStrip final = "3") →
        (pyStrip final = "" →
            run_interaction ev (menu ++ final :: rest)
              = some { score := 0, hints := "", evaluator_calls := 0 }) ∧
        (pyStrip final ≠ "" →
            run_interaction ev (menu ++ final :: rest)
              = some { score := (ev (pyStrip final)).1, hints := (ev (pyStrip final)).2,
                       evaluator_calls := 1 })) := by
  refine ⟨?_, ?_, ?_⟩
  · intro ev t h
    simp [rate_translation, h]
  · intro ev t h
    simp [rate_translation, h]
  · intro ev menu final rest hmenu hfinal
    constructor
    · intro he
      rw [run_interaction_final ev menu final rest hmenu hfinal, if_pos he]
    · intro he
      rw [run_interaction_final ev menu final rest hmenu hfinal, if_neg he]

/-- C6 (witness): a whitespace answer on the ledger path gives the -1
sentinel with no evaluator call; after one menu action, an empty final
input gives the score-0 skip with no evaluator call, and the answer
"Hund" is evaluated exactly once. -/
theorem skip_sentinel_evaluator_calls_witness :
    rate_translation constEval "  " = { rating := -1, hints := "", evaluator_calls := 0 }
      ∧ run_interaction constEval (["1"] ++ "" :: [])
          = some { score := 0, hints := "", evaluator_calls := 0 }
      ∧ run_interaction constEval (["1"] ++ "Hund" :: [])
          = some { score := 100, hints := "ok", evaluator_calls := 1 } := by
  refine ⟨?_, ?_, ?_⟩
  · exact skip_sentinel_evaluator_calls.1 constEval "  " (by decide)
  · exact (skip_sentinel_evaluator_calls.2.2 constEval ["1"] "" []
      (by decide) (by decide)).1 (by decide)
  · exact (skip_sentinel_evaluator_calls.2.2 constEval ["1"] "Hund" []
      (by decide) (by decide)).2 (by decide)

/-- C7: adding a `linked_items` edge that is already present is a no-op
(the length is unchanged), and every example-sentence entry produced by
`SentenceBuilder._build_sentence_objects` carries the inverse
`example_for` edge back to the base entry. -/
theorem linked_edge_idempotent_and_inverse :
    (∀ (links : List LinkedItem) (target rel : String),
        (addLink (addLink links target rel) target rel).length
          = (addLink links target rel).length) ∧
    (∀ (base : VocabEntry) (items : List RawItem) (baseLinks bl : List LinkedItem)
        (objs : List VocabEntry),
        buildSentenceObjects base items baseLinks = .ok (bl, objs) →
        ∀ s ∈ objs, ∃ li ∈ s.linked_items,
          li.data_id = base.data_id ∧ li.relation = "example_for") := by
  constructor
  · intro links target rel
    rw [addLink_idem]
  · intro base items baseLinks bl objs hok
    exact buildSentenceObjects_example_for base items baseLinks bl objs hok

/-- C7 (witness): inserting the same edge twice into an empty edge list
leaves one edge, and the concrete sentence object built for `sampleBase`
from `sampleItem` has the `example_for` edge back to `sampleBase`. -/
theorem linked_edge_idempotent_and_inverse_witness :
    (addLink (addLink [] "fr_phrase_The dog sleeps" "example_sentence")
          "fr_phrase_The dog sleeps" "example_sentence").length
        = (addLink [] "fr_phrase_The dog sleeps" "example_sentence").length
      ∧ ∃ li ∈ sampleSentenceObj.linked_items,
          li.data_id = sampleBase.data_id ∧ li.relation = "example_for" := by
  constructor
  · exact linked_edge_idempotent_and_inverse.1 [] "fr_phrase_The dog sleeps"
      "example_sentence"
  · exact linked_edge_idempotent_and_inverse.2 sampleBase [sampleItem]
      [] [{ data_id := "fr_phrase_The dog sleeps", relation := "example_sentence" }]
      [sampleSentenceObj] rfl sampleSentenceObj (by simp)

/-- C8 (counterexample): `VocabularyStore.add` appends to a plain Python
list, so adding the same entry twice leaves it in the in-memory store
twice, not once. -/
theorem store_add_twice_counterexample :
    (storeAdd (storeAdd [] sampleBase) sampleBase).count sampleBase = 2
      ∧ (storeAdd (storeAdd [] sampleBase) sampleBase).count sampleBase ≠ 1 := by
  constructor <;> decide

/-- C8 (amended): adding an entry twice appends it twice — the in-memory
list holds two more occurrences, with no deduplication — while persisting
twice with identical content is idempotent, because the durable write is
keyed by the content-derived id. -/
theorem store_add_append_persist_idempotent :
    (∀ (st : List VocabEntry) (e : VocabEntry),
        (storeAdd (storeAdd st e) e).count e = st.count e + 2) ∧
    (∀ (st : String → Option VocabEntry) (e : VocabEntry),
        persistSave (persistSave st e) e = persistSave st e) := by
  constructor
  · intro st e
    simp [storeAdd, List.count_append]
  · intro st e
    funext i
    by_cases h : i = e.data_id <;> simp [persistSave, h]

/-- C9: the performance aggregate is the zero-aggregate — overall 0,
count 0, last check the empty string — whenever the backing performance
tab is absent or no row matches the (source, translation, direction) key;
all three accessors are total, so "no data" never raises. -/
theorem performance_zero_aggregate (p : Performance)
    (h : p.performance_tab = none ∨ p.performance_data = some []) :
    p.overall_rating = 0 ∧ p.num_ratings = 0 ∧ p.last_check = "" := by
  have hd : p.performance_data = none ∨ p.performance_data = some [] := by
    rcases h with h | h
    · exact Or.inl (by simp [Performance.performance_data, h])
    · exact Or.inr h
  rcases hd with h2 | h2 <;>
    simp [Performance.overall_rating, Performance.num_ratings, Performance.last_check, h2]

/-- C9 (witness): a `Performance` with no backing tab, and one whose tab
has a single row for a different word pair, both give the zero-aggregate. -/
theorem performance_zero_aggregate_witness :
    ((⟨none, "chien", "Hund", "source"⟩ : Performance).overall_rating = 0
        ∧ (⟨none, "chien", "Hund", "source"⟩ : Performance).num_ratings = 0
        ∧ (⟨none, "chien", "Hund", "source"⟩ : Performance).last_check = "")
      ∧ ((⟨some [⟨"chat", "Katze", "source", 80, "2024-01-01"⟩], "chien", "Hund",
            "source"⟩ : Performance).overall_rating = 0
        ∧ (⟨some [⟨"chat", "Katze", "source", 80, "2024-01-01"⟩], "chien", "Hund",
            "source"⟩ : Performance).num_ratings = 0
        ∧ (⟨some [⟨"chat", "Katze", "source", 80, "2024-01-01"⟩], "chien", "Hund",
            "source"⟩ : Performance).last_check = "") := by
  constructor
  · exact performance_zero_aggregate ⟨none, "chien", "Hund", "source"⟩ (Or.inl rfl)
  · exact performance_zero_aggregate
      ⟨some [⟨"chat", "Katze", "source", 80, "2024-01-01"⟩], "chien", "Hund", "source"⟩
      (Or.inr (by decide))

/-- C10: constructing a `VocabLearningSession` with equal source and
target language always fails with the `ValueError` raised first in
`__init__`; consequently no successfully constructed session pairs a
language with itself. -/
theorem same_language_session_rejected :
    (∀ (lang : String) (n : Nat) (cats vts : Option (List String)),
        makeSession lang lang n cats vts
          = .error "Source and target language must differ.") ∧
    (∀ (src tgt : String) (n : Nat) (cats vts : Option (List String))
        (sess : VocabLearningSession),
        makeSession src tgt n cats vts = .ok sess → src ≠ tgt) := by
  constructor
  · intro lang n cats vts
    simp [makeSession]
  · intro src tgt n cats vts sess h heq
    subst heq
    simp [makeSession] at h

/-- C10 (witness): the session fr→fr is rejected and the successfully
constructed session fr→de has distinct languages. -/
theorem same_language_session_rejected_witness :
    makeSession "fr" "fr" 5 none none
        = .error "Source and target language must differ."
      ∧ ("fr" : String) ≠ "de" := by
  constructor
  · exact same_language_session_rejected.1 "fr" 5 none none
  · exact same_language_session_rejected.2 "fr" "de" 5 none none
      { source_language := "fr", target_language := "de", n := 5,
        categories := none, vocab_types := none } rfl

end Voca
